import Mathlib

/-!
Verification of the memoization and provider-base components of parsl
(`parsl/dataflow/memoization.py` and `parsl/providers/provider_base.py`).

Python values handled by the canonical identity encoder are modelled by the
inductive type `PyVal`; Python byte sequences by `List Nat`.  The external
serialization library (`parsl.executors.serialize.serialize_object`) and the
`hashlib.md5(...).hexdigest()` digest are not part of the two source files;
they are modelled by injective tagged encodings, which is all the memoizer
relies on.
-/

/-- Values the canonical identity encoder `id_for_memo` can receive.
`str`, `int`, `none`, `func` are the registered primitive kinds
(the `float` registration is not exercised by any property and is elided);
`list` and `dict` are the container kinds with their own registrations;
`other idx` stands for a value of an unregistered type (`idx` identifying
the Python type, as interpolated into the source's error message). -/
inductive PyVal where
  | str (s : String)
  | int (i : Int)
  | none
  | func (n : Nat)
  | list (xs : List PyVal)
  | dict (kvs : List (String × PyVal))
  | other (idx : Nat)

/-- Modelled: `serialize_object` (external to the two source files) applied to a
string, as used by `id_for_memo_serialize`.  Tagged, length-prefixed, injective. -/
def serializeStr (s : String) : List Nat :=
  0 :: s.length :: s.data.map Char.toNat

/-- Modelled: `serialize_object` applied to an int. -/
def serializeInt (i : Int) : List Nat :=
  [1, i.toNat, (-i).toNat]

/-- Modelled: `serialize_object` applied to `None`. -/
def serializeNone : List Nat := [2]

/-- Modelled: `serialize_object` applied to a plain function object
(identified by a numeric stand-in for its code identity). -/
def serializeFunc (n : Nat) : List Nat := [3, n]

/-- Modelled: `serialize_object` applied to a list of byte sequences, as used
by `id_for_memo_list` and `id_for_memo_dict` on their `normalized_list`. -/
def serializeByteList (l : List (List Nat)) : List Nat :=
  4 :: l.length :: (l.map fun bs => bs.length :: bs).flatten

/-- `sorted(...)` on the keys of a dict, as in `id_for_memo_dict`:
Python's sort on strings is a total order sort. -/
def sortStrings (l : List String) : List String :=
  List.insertionSort (fun a b => a ≤ b) l

/-- A value found by association-list lookup is structurally smaller than the
list; justifies termination of the dict case of `id_for_memo`. -/
theorem sizeOf_lookup_lt {kvs : List (String × PyVal)} {k : String} {v : PyVal}
    (h : List.lookup k kvs = some v) : sizeOf v < sizeOf kvs := by
  induction kvs with
  | nil => simp [List.lookup] at h
  | cons p tl ih =>
    rw [List.lookup] at h
    split at h
    · cases h
      cases p with
      | mk k' v =>
        simp only [List.cons.sizeOf_spec, Prod.mk.sizeOf_spec]
        omega
    · have := ih h
      simp only [List.cons.sizeOf_spec]
      omega

mutual

/-- `id_for_memo`: dispatch over the kind of the value.  Registered primitive
kinds serialize directly (`id_for_memo_serialize`); lists and dicts normalize
recursively (`id_for_memo_list`, `id_for_memo_dict`, inlined here as the
`.list`/`.dict` cases); an unregistered kind raises
`ValueError("unknown type for memoization: ...")`. -/
def id_for_memo : PyVal → Except String (List Nat)
  | .str s => .ok (serializeStr s)
  | .int i => .ok (serializeInt i)
  | .none => .ok serializeNone
  | .func n => .ok (serializeFunc n)
  | .other idx => .error ("unknown type for memoization: " ++ toString idx)
  | .list xs =>
    match idList xs with
    | .ok bs => .ok (serializeByteList bs)
    | .error e => .error e
  | .dict kvs =>
    match idDictKeys (sortStrings (kvs.map Prod.fst)) kvs with
    | .ok bs => .ok (serializeByteList bs)
    | .error e => .error e
termination_by v => (sizeOf v, 0)

/-- The element loop of `id_for_memo_list`: identity of each element in order. -/
def idList : List PyVal → Except String (List (List Nat))
  | [] => .ok []
  | x :: xs =>
    match id_for_memo x with
    | .error e => .error e
    | .ok b =>
      match idList xs with
      | .error e => .error e
      | .ok bs => .ok (b :: bs)
termination_by xs => (sizeOf xs, 0)

/-- The key loop of `id_for_memo_dict`: for each key (in sorted order) append
the identity of the key and of the looked-up value.  Dict keys are strings,
whose identity (`id_for_memo` of a `str`) is `serializeStr`; the `none` lookup
branch is Python's (unreachable-for-real-dicts) `KeyError`. -/
def idDictKeys : List String → List (String × PyVal) → Except String (List (List Nat))
  | [], _ => .ok []
  | k :: ks, kvs =>
    match hlook : List.lookup k kvs with
    | Option.none => .error "KeyError"
    | some v =>
      match id_for_memo v with
      | .error e => .error e
      | .ok vb =>
        match idDictKeys ks kvs with
        | .error e => .error e
        | .ok rest => .ok (serializeStr k :: vb :: rest)
termination_by ks kvs => (sizeOf kvs, sizeOf ks)
decreasing_by
  all_goals first
    | decreasing_tactic
    | (have h := sizeOf_lookup_lt hlook
       decreasing_tactic)

end

/-- One hexadecimal digit character. -/
def hexdigit (n : Nat) : Char :=
  if n < 10 then Char.ofNat (48 + n) else Char.ofNat (87 + n)

/-- Modelled: `hashlib.md5(x).hexdigest()` (external library).  Rendered as the
hexadecimal image of the byte sequence; the memoizer relies only on the digest
being a deterministic function of the bytes. -/
def md5hex (bs : List Nat) : String :=
  String.mk ((bs.map fun b => [hexdigit (b / 16 % 16), hexdigit (b % 16)]).flatten)

/-- A task descriptor (`task` dict from `dfk.tasks`), restricted to the fields
the memoizer reads and writes: the five hashed fields, the per-task `memoize`
flag, and the mutable `hashsum` annotation (`None` before `check_memo` runs). -/
structure TaskDesc where
  func_name : PyVal
  fn_hash : PyVal
  args : PyVal
  kwargs : PyVal
  env : PyVal
  memoize : Bool
  hashsum : Option String

/-- Python dict assignment `tbl[k] = a`: overwrite the entry in place when the
key is present (dicts keep unique keys, so the first match is the entry),
otherwise append a new entry at the end (insertion order). -/
def dictSet {K A : Type} [BEq K] : List (K × A) → K → A → List (K × A)
  | [], k, a => [(k, a)]
  | p :: tl, k, a => if k == p.1 then (k, a) :: tl else p :: dictSet tl k a

/-- The Memoizer: the global `memoize` enable flag and the cache table
(`memo_lookup_table`).  Table keys are `Option String` because the source
indexes the Python dict with `task['hashsum']`, which can be `None`; stored
results are `Option V`, with `Option.none` standing for a cached Python
`None` result (the `dfk` field is stored but never read by these operations
and is elided). -/
structure Memoizer (V : Type) where
  memoize : Bool
  memo_lookup_table : List (Option String × Option V)

/-- `Memoizer.__init__`: when memoization is enabled the table is seeded from
the supplied checkpoint dict; when disabled it is a fresh empty dict. -/
def Memoizer.init (V : Type) (memoize : Bool)
    (checkpoint : List (Option String × Option V)) : Memoizer V :=
  if memoize then
    { memoize := memoize, memo_lookup_table := checkpoint }
  else
    { memoize := memoize, memo_lookup_table := [] }

/-- `Memoizer.make_hash`: identities of `func_name, fn_hash, args, kwargs, env`
in that order, concatenated (`b''.join`), then digested.  A `ValueError` from
`id_for_memo` propagates. -/
def make_hash (task : TaskDesc) : Except String String :=
  match id_for_memo task.func_name with
  | .error e => .error e
  | .ok t1 =>
  match id_for_memo task.fn_hash with
  | .error e => .error e
  | .ok t2 =>
  match id_for_memo task.args with
  | .error e => .error e
  | .ok t3 =>
  match id_for_memo task.kwargs with
  | .error e => .error e
  | .ok t4 =>
  match id_for_memo task.env with
  | .error e => .error e
  | .ok t5 => .ok (md5hex (t1 ++ t2 ++ t3 ++ t4 ++ t5))

/-- `Memoizer.check_memo` (the `task_id` parameter is only logged and is
elided).  Returns the updated task (its `hashsum` field is assigned) together
with the `(present, result)` pair. -/
def Memoizer.check_memo {V : Type} (m : Memoizer V) (task : TaskDesc) :
    Except String (TaskDesc × Bool × Option V) :=
  if !m.memoize || !task.memoize then
    .ok ({ task with hashsum := Option.none }, false, Option.none)
  else
    match make_hash task with
    | .error e => .error e
    | .ok hashsum =>
      match List.lookup (some hashsum) m.memo_lookup_table with
      | some r => .ok ({ task with hashsum := some hashsum }, true, r)
      | Option.none => .ok ({ task with hashsum := some hashsum }, false, Option.none)

/-- `Memoizer.hash_lookup`: `self.memo_lookup_table[hashsum]`, a Python dict
subscript that raises `KeyError` when the key is absent. -/
def Memoizer.hash_lookup {V : Type} (m : Memoizer V) (hashsum : String) :
    Except String (Option V) :=
  match List.lookup (some hashsum) m.memo_lookup_table with
  | some r => .ok r
  | Option.none => .error "KeyError"

/-- `Memoizer.update_memo` (the `task_id` parameter is only logged and is
elided).  Both branches of the source's presence test perform the same
assignment `self.memo_lookup_table[task['hashsum']] = r` (they differ only in
logging). -/
def Memoizer.update_memo {V : Type} (m : Memoizer V) (task : TaskDesc) (r : Option V) :
    Memoizer V :=
  if !m.memoize || !task.memoize then m
  else { m with memo_lookup_table := dictSet m.memo_lookup_table task.hashsum r }

/-- `JobState`: the eight job lifecycle states. -/
inductive JobState where
  | UNKNOWN
  | PENDING
  | RUNNING
  | CANCELLED
  | COMPLETED
  | FAILED
  | TIMEOUT
  | HELD
  deriving DecidableEq

/-- The `(number, terminal-flag, display-name)` value attached to each
`JobState` member. -/
def JobState.value : JobState → Nat × Bool × String
  | .UNKNOWN => (0, false, "UNKNOWN")
  | .PENDING => (1, false, "PENDING")
  | .RUNNING => (2, false, "RUNNING")
  | .CANCELLED => (3, true, "CANCELLED")
  | .COMPLETED => (4, true, "COMPLETED")
  | .FAILED => (5, true, "FAILED")
  | .TIMEOUT => (6, true, "TIMEOUT")
  | .HELD => (7, false, "HELD")

/-- `JobState.terminal`: the second component of the member's value. -/
def JobState.terminal (s : JobState) : Bool := s.value.2.1

/-- `JobState.status_name`: the third component of the member's value. -/
def JobState.status_name (s : JobState) : String := s.value.2.2

/-- The outcome of opening and reading the file at a path: full text content,
`FileNotFoundError` on open, or any other error (permissions, I/O, decoding)
raised during open or read.  A filesystem is a map from paths to outcomes. -/
inductive FileOutcome where
  | content (text : List Char)
  | missing
  | failure

/-- `JobStatus`: a job state plus optional message, exit code and output-log
paths. -/
structure JobStatus where
  state : JobState
  message : Option String
  exit_code : Option Int
  stdout_path : Option String
  stderr_path : Option String

/-- `JobStatus.SUMMARY_TRUNCATION_THRESHOLD`. -/
def JobStatus.SUMMARY_TRUNCATION_THRESHOLD : Nat := 2048

/-- `JobStatus._read_file`: read the whole file, converting any exception
(`except Exception`) to `None`. -/
def JobStatus.read_file (fs : String → FileOutcome) (path : String) :
    Option (List Char) :=
  match fs path with
  | .content text => some text
  | .missing => Option.none
  | .failure => Option.none

/-- `JobStatus.stdout`: read the full stdout file when a truthy path is
recorded (Python's `if self.stdout_path:` is false for both `None` and the
empty string). -/
def JobStatus.stdout (st : JobStatus) (fs : String → FileOutcome) :
    Option (List Char) :=
  match st.stdout_path with
  | some p => if p.isEmpty then Option.none else JobStatus.read_file fs p
  | Option.none => Option.none

/-- `JobStatus.stderr`: as `stdout`, for the stderr path. -/
def JobStatus.stderr (st : JobStatus) (fs : String → FileOutcome) :
    Option (List Char) :=
  match st.stderr_path with
  | some p => if p.isEmpty then Option.none else JobStatus.read_file fs p
  | Option.none => Option.none

/-- The `'\n...\n'` elision marker inserted between the head and tail of a
truncated summary. -/
def elisionMarker : List Char := ['\n', '.', '.', '.', '\n']

/-- `JobStatus._read_summary`: return the whole content when the size is
within `SUMMARY_TRUNCATION_THRESHOLD`, otherwise the first and last
`threshold / 2` of the content around the elision marker.  Only
`FileNotFoundError` is caught (converted to `None`); any other exception
raised while opening or reading propagates to the caller (`Except.error`). -/
def JobStatus.read_summary (fs : String → FileOutcome) (path : String) :
    Except Unit (Option (List Char)) :=
  if path.isEmpty then .ok Option.none
  else
    match fs path with
    | .missing => .ok Option.none
    | .failure => .error ()
    | .content text =>
      let size := text.length
      if size > JobStatus.SUMMARY_TRUNCATION_THRESHOLD then
        let half_threshold := JobStatus.SUMMARY_TRUNCATION_THRESHOLD / 2
        .ok (some (text.take half_threshold ++ elisionMarker ++
          text.drop (size - half_threshold)))
      else
        .ok (some text)

/-- `JobStatus.stdout_summary`: bounded read of the stdout file when a truthy
path is recorded. -/
def JobStatus.stdout_summary (st : JobStatus) (fs : String → FileOutcome) :
    Except Unit (Option (List Char)) :=
  match st.stdout_path with
  | some p => if p.isEmpty then .ok Option.none else JobStatus.read_summary fs p
  | Option.none => .ok Option.none

/-- `JobStatus.stderr_summary`: as `stdout_summary`, for the stderr path. -/
def JobStatus.stderr_summary (st : JobStatus) (fs : String → FileOutcome) :
    Except Unit (Option (List Char)) :=
  match st.stderr_path with
  | some p => if p.isEmpty then .ok Option.none else JobStatus.read_summary fs p
  | Option.none => .ok Option.none

/-! ### Helper lemmas about the cache-table model -/

/-- Python dict assignment followed by lookup of the same key yields the
assigned value. -/
theorem dictSet_lookup {K A : Type} [BEq K] [LawfulBEq K]
    (tbl : List (K × A)) (k : K) (a : A) :
    List.lookup k (dictSet tbl k a) = some a := by
  induction tbl with
  | nil => simp [dictSet, List.lookup]
  | cons p tl ih =>
    rw [dictSet]
    split
    · simp [List.lookup]
    · next hpk =>
      have hf : (k == p.1) = false := by simpa using hpk
      simp [List.lookup, hf, ih]

/-! ### Concrete example descriptors -/

/-- The end-to-end scenario descriptor from the specification:
`{func_name: "f", fn_hash: "h1", args: [1, 2], kwargs: {}, env: "e"}`,
memoization enabled. -/
def taskEx : TaskDesc :=
  { func_name := .str "f", fn_hash := .str "h1",
    args := .list [.int 1, .int 2], kwargs := .dict [],
    env := .str "e", memoize := true, hashsum := Option.none }

/-- The hash `make_hash` assigns to `taskEx`. -/
def hashEx : String := (make_hash taskEx).toOption.getD ""

/-- `make_hash` succeeds on `taskEx` and yields `hashEx`. -/
theorem make_hash_taskEx : make_hash taskEx = .ok hashEx := by
  have hex : ∃ v, make_hash taskEx = .ok v := by
    simp [make_hash, taskEx, id_for_memo, idList, idDictKeys, sortStrings]
  obtain ⟨v, hv⟩ := hex
  simp [hashEx, hv, Except.toOption]

/-- A descriptor whose `args` value has no registered encoding rule, so that
hashing it would raise; memoization is off for it. -/
def taskOther : TaskDesc :=
  { func_name := .str "f", fn_hash := .str "h1", args := .other 0,
    kwargs := .dict [], env := .str "e", memoize := false,
    hashsum := some "stale" }

/-! ### Claim theorems -/

/-- C3: when the Memoizer's global `memoize` flag or the task's own `memoize`
flag is false, `check_memo` sets the task's `hashsum` to `None` and returns
`(present = false, result = none)`.  The theorem holds for every task,
including tasks whose fields have no registered encoding rule (on which
`make_hash` would raise), and the result is always `Except.ok`: no hash is
computed on this path. -/
theorem check_memo_disabled {V : Type} (m : Memoizer V) (task : TaskDesc)
    (h : m.memoize = false ∨ task.memoize = false) :
    m.check_memo task =
      .ok ({ task with hashsum := Option.none }, false, Option.none) := by
  rcases h with h | h <;> simp [Memoizer.check_memo, h]

/-- Witness for C3: a memoizer with caching on but a task with its own flag
off, whose `args` could not even be hashed; `check_memo` still returns the
soft `(false, none)` without raising. -/
theorem check_memo_disabled_witness :
    Memoizer.check_memo (⟨true, []⟩ : Memoizer Nat) taskOther =
      .ok ({ taskOther with hashsum := Option.none }, false, Option.none) :=
  check_memo_disabled _ _ (Or.inr rfl)

/-- C4: when the Memoizer's global `memoize` flag or the task's own `memoize`
flag is false, `update_memo` leaves the cache table exactly unchanged. -/
theorem update_memo_disabled {V : Type} (m : Memoizer V) (task : TaskDesc)
    (r : Option V) (h : m.memoize = false ∨ task.memoize = false) :
    (m.update_memo task r).memo_lookup_table = m.memo_lookup_table := by
  rcases h with h | h <;> simp [Memoizer.update_memo, h]

/-- Witness for C4: a globally disabled memoizer with one existing entry; an
update leaves the table as it was. -/
theorem update_memo_disabled_witness :
    (Memoizer.update_memo (⟨false, [(some "k", some 7)]⟩ : Memoizer Nat)
        taskEx (some 9)).memo_lookup_table = [(some "k", some 7)] :=
  update_memo_disabled _ _ _ (Or.inl rfl)

/-- C5: `terminal` is true exactly for `CANCELLED`, `COMPLETED`, `FAILED` and
`TIMEOUT`, false for `UNKNOWN`, `PENDING`, `RUNNING` and `HELD`, and
`status_name` yields each member's canonical display name. -/
theorem jobstate_terminal_and_status_name :
    (∀ s : JobState, s.terminal = true ↔
      (s = .CANCELLED ∨ s = .COMPLETED ∨ s = .FAILED ∨ s = .TIMEOUT)) ∧
    JobState.UNKNOWN.status_name = "UNKNOWN" ∧
    JobState.PENDING.status_name = "PENDING" ∧
    JobState.RUNNING.status_name = "RUNNING" ∧
    JobState.CANCELLED.status_name = "CANCELLED" ∧
    JobState.COMPLETED.status_name = "COMPLETED" ∧
    JobState.FAILED.status_name = "FAILED" ∧
    JobState.TIMEOUT.status_name = "TIMEOUT" ∧
    JobState.HELD.status_name = "HELD" := by
  refine ⟨fun s => ?_, rfl, rfl, rfl, rfl, rfl, rfl, rfl, rfl⟩
  cases s <;> simp [JobState.terminal, JobState.value]

/-- C8: a value of an unregistered kind makes `id_for_memo` raise the
unsupported-type `ValueError`; it never produces a byte sequence for such a
value. -/
theorem id_for_memo_unregistered (idx : Nat) :
    id_for_memo (.other idx) =
      .error ("unknown type for memoization: " ++ toString idx) ∧
    ∀ bs : List Nat, id_for_memo (.other idx) ≠ .ok bs := by
  refine ⟨by simp [id_for_memo], fun bs => ?_⟩
  simp [id_for_memo]

/-- C9: `hash_lookup` returns the stored result when the hash has an entry and
raises `KeyError` when it has none; on the same absent hash, `check_memo` for
an enabled task hashing to it instead returns the soft `(false, none)` without
raising. -/
theorem hash_lookup_spec {V : Type} (m : Memoizer V) (h : String) :
    (∀ r, List.lookup (some h) m.memo_lookup_table = some r →
      m.hash_lookup h = .ok r) ∧
    (List.lookup (some h) m.memo_lookup_table = Option.none →
      m.hash_lookup h = .error "KeyError" ∧
      ∀ task : TaskDesc, m.memoize = true → task.memoize = true →
        make_hash task = .ok h →
        m.check_memo task =
          .ok ({ task with hashsum := some h }, false, Option.none)) := by
  constructor
  · intro r hr
    simp [Memoizer.hash_lookup, hr]
  · intro hn
    refine ⟨by simp [Memoizer.hash_lookup, hn], fun task hm ht hmk => ?_⟩
    simp [Memoizer.check_memo, hm, ht, hmk, hn]

/-- Witness for C9: on a one-entry table, lookup of the present hash returns
the stored result and lookup of an absent hash raises `KeyError`. -/
theorem hash_lookup_spec_witness :
    Memoizer.hash_lookup (⟨true, [(some "k", some 5)]⟩ : Memoizer Nat) "k" =
      .ok (some 5) ∧
    Memoizer.hash_lookup (⟨true, [(some "k", some 5)]⟩ : Memoizer Nat) "q" =
      .error "KeyError" :=
  ⟨(hash_lookup_spec (⟨true, [(some "k", some 5)]⟩ : Memoizer Nat) "k").1
      (some 5) (by simp [List.lookup]),
    ((hash_lookup_spec (⟨true, [(some "k", some 5)]⟩ : Memoizer Nat) "q").2
      (by simp [List.lookup])).1⟩

/-- C10: constructing a Memoizer with memoization disabled discards the
supplied checkpoint: the table is empty and every `hash_lookup`, including of
keys present in the checkpoint, raises `KeyError`. -/
theorem memoizer_disabled_ignores_checkpoint {V : Type}
    (checkpoint : List (Option String × Option V)) (h : String) :
    (Memoizer.init V false checkpoint).memo_lookup_table = [] ∧
    (Memoizer.init V false checkpoint).hash_lookup h = .error "KeyError" := by
  constructor <;> simp [Memoizer.init, Memoizer.hash_lookup, List.lookup]

/-- Association-list lookup is insensitive to the order of entries when the
keys are distinct. -/
theorem lookup_eq_of_perm_of_nodup {α β : Type} [BEq α] [LawfulBEq α]
    {l1 l2 : List (α × β)} (hp : l1.Perm l2)
    (hn : (l1.map Prod.fst).Nodup) (k : α) :
    List.lookup k l1 = List.lookup k l2 := by
  induction hp with
  | nil => rfl
  | cons x h ih =>
    rename_i t1 t2
    have hn' : (t1.map Prod.fst).Nodup := by
      simp only [List.map_cons, List.nodup_cons] at hn
      exact hn.2
    simp only [List.lookup]
    cases hkx : k == x.1 <;> simp [ih hn']
  | swap x y l =>
    simp only [List.lookup]
    cases hky : k == y.1 <;> cases hkx : k == x.1 <;> simp
    · exfalso
      have h1 : k = y.1 := by simpa using hky
      have h2 : k = x.1 := by simpa using hkx
      simp only [List.map_cons, List.nodup_cons] at hn
      exact hn.1 (by simp [← h1, h2])
  | trans h1 h2 ih1 ih2 =>
    rename_i la lb lc
    have hnb : (lb.map Prod.fst).Nodup := ((h1.map Prod.fst).nodup_iff).mp hn
    exact (ih1 hn).trans (ih2 hnb)

/-- `sorted(...)` maps two lists with the same elements to the same sorted
list. -/
theorem sortStrings_perm_eq {l1 l2 : List String} (h : l1.Perm l2) :
    sortStrings l1 = sortStrings l2 := by
  haveI hat : IsAntisymm String (fun a b => a ≤ b) := ⟨fun a b => le_antisymm⟩
  unfold sortStrings
  exact @List.eq_of_perm_of_sorted String (fun a b => a ≤ b) hat _ _
    ((List.perm_insertionSort _ _).trans (h.trans (List.perm_insertionSort _ _).symm))
    (List.sorted_insertionSort _ _) (List.sorted_insertionSort _ _)

/-- The sorted key loop of `id_for_memo_dict` only consults the dict through
key lookup. -/
theorem idDictKeys_congr (keys : List String) (kvs1 kvs2 : List (String × PyVal))
    (h : ∀ k, List.lookup k kvs1 = List.lookup k kvs2) :
    idDictKeys keys kvs1 = idDictKeys keys kvs2 := by
  induction keys with
  | nil => simp [idDictKeys]
  | cons k ks ih =>
    rw [idDictKeys, idDictKeys, h k, ih]

/-- C6: two dicts holding the same key/value pairs in different insertion
orders (distinct keys, as in any Python dict) receive the same identity from
`id_for_memo`: the encoder sorts the top-level keys and encodes each key
followed by its value in that canonical order. -/
theorem id_for_memo_dict_insertion_order (kvs1 kvs2 : List (String × PyVal))
    (hperm : kvs1.Perm kvs2) (hnodup : (kvs1.map Prod.fst).Nodup) :
    id_for_memo (.dict kvs1) = id_for_memo (.dict kvs2) := by
  rw [id_for_memo, id_for_memo, sortStrings_perm_eq (hperm.map Prod.fst),
    idDictKeys_congr _ kvs1 kvs2 (lookup_eq_of_perm_of_nodup hperm hnodup)]

/-- Witness for C6: the specification's example,
`identity({"a": 3, "b": 4}) == identity({"b": 4, "a": 3})`. -/
theorem id_for_memo_dict_insertion_order_witness :
    id_for_memo (.dict [("a", .int 3), ("b", .int 4)]) =
      id_for_memo (.dict [("b", .int 4), ("a", .int 3)]) :=
  id_for_memo_dict_insertion_order _ _
    (List.Perm.swap ("b", PyVal.int 4) ("a", PyVal.int 3) []) (by simp)

/-- C1: with memoization enabled, after `update_memo` stores result `r` under
the task's hash `H`, `check_memo` on any enabled descriptor whose computed
hash is also `H` returns `(present = true, result = r)` — also when `r` is
Python `None` (`Option.none` here), making a cached `None` distinguishable
from the `(false, none)` of a miss. -/
theorem update_then_check {V : Type} (m : Memoizer V) (task task2 : TaskDesc)
    (H : String) (r : Option V)
    (hm : m.memoize = true) (ht : task.memoize = true)
    (hh : task.hashsum = some H)
    (ht2 : task2.memoize = true) (hH2 : make_hash task2 = .ok H) :
    (m.update_memo task r).check_memo task2 =
      .ok ({ task2 with hashsum := some H }, true, r) := by
  have hlk : List.lookup (some H) (dictSet m.memo_lookup_table (some H) r) = some r :=
    dictSet_lookup m.memo_lookup_table (some H) r
  simp [Memoizer.update_memo, Memoizer.check_memo, hm, ht, ht2, hh, hH2, hlk]

/-- Witness for C1: caching `None` for the specification's example descriptor
and checking a separately constructed identical descriptor yields
`(true, None)`, not the miss pair. -/
theorem update_then_check_witness :
    (Memoizer.update_memo (⟨true, []⟩ : Memoizer Nat)
        { taskEx with hashsum := some hashEx } Option.none).check_memo taskEx =
      .ok ({ taskEx with hashsum := some hashEx }, true, Option.none) :=
  update_then_check _ _ _ _ _ rfl rfl rfl rfl make_hash_taskEx

/-- A filesystem on which opening any path raises an error that is not
`FileNotFoundError` (for instance `PermissionError`). -/
def fsFail : String → FileOutcome := fun _ => .failure

/-- A running job whose stdout path is recorded. -/
def stBoth : JobStatus :=
  { state := .RUNNING, message := Option.none, exit_code := Option.none,
    stdout_path := some "out", stderr_path := Option.none }

/-- C2 counterexample: a `JobStatus` with a recorded stdout path whose file
read fails with an error other than `FileNotFoundError`; `stdout_summary`
propagates the error to the caller instead of returning an absent value
(`_read_summary` catches only `FileNotFoundError`, unlike `_read_file`'s
`except Exception`). -/
theorem summary_raises_on_read_failure :
    stBoth.stdout_summary fsFail = .error () := rfl

/-- C2 (amended): `stdout` and `stderr` degrade to absent on any read
failure; `stdout_summary` and `stderr_summary` degrade to absent when the
file is missing, but any other read failure propagates to the caller. -/
theorem read_failure_policy (st : JobStatus) (fs : String → FileOutcome)
    (p : String) (hne : p.isEmpty = false) :
    (st.stdout_path = some p → (fs p = .missing ∨ fs p = .failure) →
      st.stdout fs = Option.none) ∧
    (st.stderr_path = some p → (fs p = .missing ∨ fs p = .failure) →
      st.stderr fs = Option.none) ∧
    (st.stdout_path = some p → fs p = .missing →
      st.stdout_summary fs = .ok Option.none) ∧
    (st.stderr_path = some p → fs p = .missing →
      st.stderr_summary fs = .ok Option.none) ∧
    (st.stdout_path = some p → fs p = .failure →
      st.stdout_summary fs = .error ()) ∧
    (st.stderr_path = some p → fs p = .failure →
      st.stderr_summary fs = .error ()) := by
  refine ⟨fun hp hf => ?_, fun hp hf => ?_, fun hp hf => ?_, fun hp hf => ?_,
    fun hp hf => ?_, fun hp hf => ?_⟩
  · rcases hf with hf | hf <;>
      simp [JobStatus.stdout, JobStatus.read_file, hp, hne, hf]
  · rcases hf with hf | hf <;>
      simp [JobStatus.stderr, JobStatus.read_file, hp, hne, hf]
  · simp [JobStatus.stdout_summary, JobStatus.read_summary, hp, hne, hf]
  · simp [JobStatus.stderr_summary, JobStatus.read_summary, hp, hne, hf]
  · simp [JobStatus.stdout_summary, JobStatus.read_summary, hp, hne, hf]
  · simp [JobStatus.stderr_summary, JobStatus.read_summary, hp, hne, hf]

/-- A filesystem on which every path is missing (`FileNotFoundError`). -/
def fsMissing : String → FileOutcome := fun _ => .missing

/-- Witness for amended C2: with the stdout file missing, both the full read
and the summary read degrade to absent without raising. -/
theorem read_failure_policy_witness :
    stBoth.stdout fsMissing = Option.none ∧
    stBoth.stdout_summary fsMissing = .ok Option.none :=
  ⟨(read_failure_policy stBoth fsMissing "out" rfl).1 rfl (Or.inl rfl),
    (read_failure_policy stBoth fsMissing "out" rfl).2.2.1 rfl rfl⟩

/-- C7: `stdout_summary` of a file of exactly 2048 characters is the full
content unmodified; of a 4000-character file it is the first 1024 characters,
the `'\n...\n'` elision marker, and the last 1024 characters — 2053 characters
in total, strictly shorter than the original. -/
theorem stdout_summary_truncation (st : JobStatus) (fs : String → FileOutcome)
    (p : String) (text : List Char)
    (hpath : st.stdout_path = some p) (hp : p.isEmpty = false)
    (hfs : fs p = .content text) :
    (text.length = 2048 → st.stdout_summary fs = .ok (some text)) ∧
    (text.length = 4000 →
      st.stdout_summary fs =
        .ok (some (text.take 1024 ++ elisionMarker ++ text.drop 2976)) ∧
      (text.take 1024 ++ elisionMarker ++ text.drop 2976).length = 2053 ∧
      (text.take 1024 ++ elisionMarker ++ text.drop 2976).length < text.length) := by
  constructor
  · intro hlen
    simp [JobStatus.stdout_summary, hpath, hp, JobStatus.read_summary, hfs, hlen,
      JobStatus.SUMMARY_TRUNCATION_THRESHOLD]
  · intro hlen
    have hmlen : elisionMarker.length = 5 := rfl
    have hl : (text.take 1024 ++ elisionMarker ++ text.drop 2976).length = 2053 := by
      simp [List.length_append, List.length_take, List.length_drop, hlen, hmlen]
    refine ⟨?_, hl, ?_⟩
    · simp [JobStatus.stdout_summary, hpath, hp, JobStatus.read_summary, hfs, hlen,
        JobStatus.SUMMARY_TRUNCATION_THRESHOLD]
    · rw [hl, hlen]
      norm_num

/-- A completed job with a 2048-character stdout file recorded. -/
def st2048 : JobStatus :=
  { state := .COMPLETED, message := Option.none, exit_code := Option.none,
    stdout_path := some "o2048", stderr_path := Option.none }

/-- A completed job with a 4000-character stdout file recorded. -/
def st4000 : JobStatus :=
  { state := .COMPLETED, message := Option.none, exit_code := Option.none,
    stdout_path := some "o4000", stderr_path := Option.none }

/-- A filesystem holding the 2048-character and 4000-character stdout files. -/
def fsOut : String → FileOutcome := fun p =>
  if p == "o2048" then .content (List.replicate 2048 'a')
  else .content (List.replicate 4000 'b')

/-- Witness for C7: the 2048-character file comes back whole; the
4000-character file comes back as head, marker and tail. -/
theorem stdout_summary_truncation_witness :
    st2048.stdout_summary fsOut = .ok (some (List.replicate 2048 'a')) ∧
    st4000.stdout_summary fsOut =
      .ok (some ((List.replicate 4000 'b').take 1024 ++ elisionMarker ++
        (List.replicate 4000 'b').drop 2976)) :=
  ⟨(stdout_summary_truncation st2048 fsOut "o2048" (List.replicate 2048 'a')
      rfl rfl rfl).1 (List.length_replicate 2048 'a'),
    ((stdout_summary_truncation st4000 fsOut "o4000" (List.replicate 4000 'b')
      rfl rfl rfl).2 (List.length_replicate 4000 'b')).1⟩

/-- Witness for C8: the encoder raises the unsupported-type error on a
concrete unregistered value. -/
theorem id_for_memo_unregistered_witness :
    id_for_memo (.other 0) =
      .error ("unknown type for memoization: " ++ toString 0) :=
  (id_for_memo_unregistered 0).1

/-- Witness for C10: a disabled Memoizer constructed from a one-entry
checkpoint rejects lookup of the checkpointed key. -/
theorem memoizer_disabled_ignores_checkpoint_witness :
    (Memoizer.init Nat false [(some "k", some 5)]).memo_lookup_table = [] ∧
    (Memoizer.init Nat false [(some "k", some 5)]).hash_lookup "k" =
      .error "KeyError" :=
  memoizer_disabled_ignores_checkpoint [(some "k", some 5)] "k"
